import Mathlib

/-!
Verification development for the cats repository (climate aware task scheduler).

The Python sources embedded here are:
- cats/check_clean_arguments.py (validate_jobinfo)
- cats/configure.py (get_runtime_config, get_hardware_info and friends)
- cats/__init__.py (the main orchestration, modelled from the point where
  window optimisation has succeeded)

The modules cats/optimise_starttime.py (get_avg_estimates) and
cats/carbonFootprint.py (greenAlgorithmsCalculator) are part of the
repository but their sources are not available; they are modelled from the
specification where a claim needs them, and each such definition carries a
doc comment starting with "Modelled from the spec:".

Machine integers are modelled as Int/Nat (Python integers are unbounded),
carbon intensities and power figures as rationals, fallible code as Except.
Strings are modelled over their character lists; the regular expression
scan of re.finditer is embedded as an executable scanner.
-/

/-! ## Regular expression scan: re.finditer(r"(\w+)=(\w+)", s)

Python word characters are modelled as ASCII alphanumerics plus underscore
(the CLI inputs the repository documents are ASCII). -/

def isWordChar (c : Char) : Bool :=
  c.isAlphanum || c == '_'

/-- Fuel-indexed scanner for the regex (\w+)=(\w+): at each position, a
maximal word-character run must be followed by = and a nonempty word run;
on a match the scan resumes after the match, on a failure it advances one
character, exactly as re.finditer does.  The fuel only needs to dominate
the number of scan steps; scanPairs supplies list length as fuel. -/
def scanPairsFuel : Nat → List Char → List (List Char × List Char)
  | 0, _ => []
  | _ + 1, [] => []
  | fuel + 1, c :: cs =>
    if isWordChar c then
      match cs.dropWhile isWordChar with
      | '=' :: r2 =>
        if (r2.takeWhile isWordChar).isEmpty then scanPairsFuel fuel cs
        else
          (c :: cs.takeWhile isWordChar, r2.takeWhile isWordChar) ::
            scanPairsFuel fuel (r2.dropWhile isWordChar)
      | _ => scanPairsFuel fuel cs
    else scanPairsFuel fuel cs

def scanPairs (l : List Char) : List (List Char × List Char) :=
  scanPairsFuel l.length l

def infoPairs (jobinfo : String) : List (String × String) :=
  (scanPairs jobinfo.data).map (fun kv => (String.mk kv.1, String.mk kv.2))

/-! ## Python dict built from a list of key/value pairs

dict([...]) keeps the first-insertion position of every key and lets a
later pair overwrite the value stored under an existing key. -/

def lookupValue : List (String × α) → String → Option α
  | [], _ => none
  | kv :: rest, k => if kv.1 = k then some kv.2 else lookupValue rest k

def updateValue : List (String × α) → String → α → List (String × α)
  | [], _, _ => []
  | kv :: rest, k, v =>
    if kv.1 = k then (k, v) :: updateValue rest k v
    else kv :: updateValue rest k v

def dictInsert (d : List (String × α)) (k : String) (v : α) : List (String × α) :=
  if (lookupValue d k).isSome then updateValue d k v else d ++ [(k, v)]

def dictOfPairs (ps : List (String × α)) : List (String × α) :=
  ps.foldl (fun d kv => dictInsert d kv.1 kv.2) []

/-! ## Python int() on a string

int(s) strips surrounding whitespace, accepts an optional sign and a
nonempty digit sequence in which single underscores may separate digits
(Python 3.6 numeric literal grouping). -/

def digitVal (c : Char) : Nat :=
  c.toNat - 48

def pyDigitsCore : Nat → List Char → Option Nat
  | acc, [] => some acc
  | acc, c :: cs =>
    if c = '_' then
      match cs with
      | [] => none
      | c2 :: cs2 =>
        if c2.isDigit then pyDigitsCore (10 * acc + digitVal c2) cs2 else none
    else if c.isDigit then pyDigitsCore (10 * acc + digitVal c) cs
    else none

def pyIntDigits : List Char → Option Nat
  | [] => none
  | c :: cs => if c.isDigit then pyDigitsCore (digitVal c) cs else none

def stripSpaces (l : List Char) : List Char :=
  ((l.dropWhile Char.isWhitespace).reverse.dropWhile Char.isWhitespace).reverse

def pyInt (s : String) : Option Int :=
  if (stripSpaces s.data).head? = some '-' then
    (pyIntDigits (stripSpaces s.data).tail).map (fun n => -(n : Int))
  else if (stripSpaces s.data).head? = some '+' then
    (pyIntDigits (stripSpaces s.data).tail).map (fun n => (n : Int))
  else (pyIntDigits (stripSpaces s.data)).map (fun n => (n : Int))

/-! ## cats/check_clean_arguments.py: validate_jobinfo

The Python function writes its error reports to stderr and returns a dict,
the empty dict signalling failure.  The embedding returns both the stderr
lines and the parsed info dict; the info component is [] exactly when the
source returns the empty dict (a successful parse always holds the three
required keys, so success never yields an empty dict). -/

def expected_info_keys : List String := ["memory", "cpus", "gpus"]

def missingKeys (required : List String) (d : List (String × α)) : List String :=
  required.filter (fun k => (lookupValue d k).isNone)

def renderNames (l : List String) : String :=
  String.intercalate ", " l

def missing_keys_msg (missing : List String) : String :=
  "ERROR: Missing job info keys: " ++ renderNames missing

def profile_msg (names : List String) : String :=
  "ERROR: job info key profile should be one of " ++ renderNames names ++ ". Typo?\n"

def numeric_msg (key : String) : String :=
  "ERROR: job info key " ++ key ++ " should be numeric\n"

/-- The in-place int() conversion loop over the info dict: the result keeps
every key in order; the first non-numeric value aborts with that key. -/
def convertInts : List (String × String) → Except String (List (String × Int))
  | [] => Except.ok []
  | kv :: rest =>
    match pyInt kv.2 with
    | none => Except.error kv.1
    | some n =>
      match convertInts rest with
      | Except.error k => Except.error k
      | Except.ok out => Except.ok ((kv.1, n) :: out)

structure ValidateResult where
  stderr : List String
  info : List (String × Int)
deriving DecidableEq

def validate_jobinfo (jobinfo : String) (expected_profile_names : List String) :
    ValidateResult :=
  let info := dictOfPairs (infoPairs jobinfo)
  let missing := missingKeys expected_info_keys info
  if missing.isEmpty then
    let profile := (lookupValue info "profile").getD "default"
    let info2 := info.filter (fun kv => kv.1 != "profile")
    if expected_profile_names.contains profile then
      match convertInts info2 with
      | Except.ok converted => ⟨[], converted⟩
      | Except.error key => ⟨[numeric_msg key], []⟩
    else ⟨[profile_msg expected_profile_names], []⟩
  else ⟨[missing_keys_msg missing], []⟩

/-! ## cats/configure.py

The module-level scope of configure.py binds exactly the imported names and
the four function definitions; in particular the name re is never bound, so
evaluating re.finditer inside get_hardware_info raises NameError.  Python
exceptions, sys.exit and the StopIteration of an exhausted iterator are the
error values of the embedding; file and network I/O results are passed in
as parameters (they are collaborator responsibilities in the spec). -/

inductive PyErr where
  | nameError (n : String)
  | attributeError (n : String)
  | keyError (k : String)
  | valueError
  | assertionError
  | stopIteration
  | systemExit (code : Nat)
deriving DecidableEq

def configure_module_names : List String :=
  ["logging", "sys", "Mapping", "Any", "requests", "yaml",
   "API_interfaces", "APIInterface", "__all__",
   "get_runtime_config", "config_from_file", "CI_API_from_config_or_args",
   "get_location_from_config_or_args", "get_hardware_info"]

/-- Evaluating a bare name looks it up in the module scope of configure.py
(builtins aside); an unbound name raises NameError. -/
def resolveName (n : String) : Except PyErr Unit :=
  if configure_module_names.contains n then Except.ok () else Except.error (PyErr.nameError n)

def logging_module_attrs : List String :=
  ["debug", "info", "warning", "error", "critical", "exception"]

/-- An attribute access logging.a; a misspelt attribute raises AttributeError. -/
def loggingAttr (a : String) : Except PyErr Unit :=
  if logging_module_attrs.contains a then Except.ok () else Except.error (PyErr.attributeError a)

/-- One named partition from the configuration: per-resource power draw in
watts and the memory power coefficient (profile[d]["power"] accesses). -/
structure HardwareProfile where
  cpu_power : ℚ
  gpu_power : ℚ
  mem_coeff : ℚ

/-- Lines 144-154 of configure.py: when no profile key was parsed, the first
configured profile is taken (next(iter(profiles.items())), StopIteration on
an empty mapping); when a profile key is present the try/except around the
lookup only logs a KeyError, and the following sys.exit(1) sits at the
indentation level of the try statement, so it runs unconditionally in this
branch. -/
def configure_profile_resolution (info : List (String × String))
    (profiles : List (String × HardwareProfile)) :
    Except PyErr (HardwareProfile × List (String × String)) :=
  if (lookupValue info "profile").isNone then
    match profiles with
    | [] => Except.error PyErr.stopIteration
    | (_, p) :: _ => Except.ok (p, info)
  else
    Except.error (PyErr.systemExit 1)

inductive HwResult where
  | empty
  | powers (l : List (ℚ × Int))

/-- get_hardware_info of configure.py.  Its first evaluated expression is
re.finditer, and re is unbound in the module, so every call raises
NameError("re").  The remainder translates the dead code faithfully: the
missing-keys early return of {}, the profile resolution above, then the
int() loop whose ValueError handler mentions the unbound name loggin, and
the final comprehension that reads the keys ncpus and ngpus. -/
def get_hardware_info (jobinfo : String) (profiles : List (String × HardwareProfile)) :
    Except PyErr HwResult := do
  let _ ← resolveName "re"
  let info := dictOfPairs (infoPairs jobinfo)
  if !(missingKeys expected_info_keys info).isEmpty then
    return HwResult.empty
  else
    let (profile, info) ← configure_profile_resolution info profiles
    let info ← match convertInts info with
      | Except.ok c => Except.ok c
      | Except.error _ => do
          let _ ← resolveName "loggin"
          Except.error (PyErr.systemExit 1)
    let ncpus ← match lookupValue info "ncpus" with
      | some v => Except.ok v
      | none => Except.error (PyErr.keyError "ncpus")
    let ngpus ← match lookupValue info "ngpus" with
      | some v => Except.ok v
      | none => Except.error (PyErr.keyError "ngpus")
    return HwResult.powers [(profile.cpu_power, ncpus), (profile.gpu_power, ngpus)]

/-- Command line argument namespace as get_runtime_config consumes it. -/
structure Args where
  api : Option String
  location : Option String
  duration : String
  jobinfo : Option String

/-- The configuration mapping as loaded by config_from_file (collaborator
file I/O; an absent key is none). -/
structure Cfg where
  api : Option String
  location : Option String

def API_interfaces_keys : List String := ["carbonintensity.org.uk"]

/-- Lines 76-89 of configure.py: command line choice wins over the config
file, an absent key falls back to the default with a warning; an invalid
choice only logs an error and lets the function fall off the end,
returning None. -/
def CI_API_from_config_or_args (args : Args) (cfg : Cfg) : Except PyErr (Option String) := do
  let api := match args.api with
    | some a => a
    | none => match cfg.api with
      | some a => a
      | none => "carbonintensity.org.uk"
  if API_interfaces_keys.contains api then
    return some api
  else do
    let _ ← loggingAttr "error"
    return none

/-- Lines 92-115 of configure.py.  The http parameter is the collaborator
result of the ipapi.co request: none for a non-200 response (the source
logs and calls sys.exit(1)), some postal for a 200 response, on which the
source asserts truthiness of the postal code. -/
def get_location_from_config_or_args (args : Args) (cfg : Cfg) (http : Option String) :
    Except PyErr String :=
  match args.location with
  | some l => Except.ok l
  | none =>
    match cfg.location with
    | some l => Except.ok l
    | none =>
      match http with
      | none => Except.error (PyErr.systemExit 1)
      | some postal =>
        if postal = "" then Except.error PyErr.assertionError else Except.ok postal

/-- Lines 46-54 of configure.py: int(args.duration) with a ValueError
handler that calls logging.eror - an attribute the logging module does not
have, so the handler itself raises AttributeError("eror") and the intended
raise ValueError is never reached; a non-positive parsed value goes through
logging.error and does raise ValueError. -/
def duration_validation (duration : String) : Except PyErr Int :=
  match pyInt duration with
  | none => do
      let _ ← loggingAttr "eror"
      Except.error PyErr.valueError
  | some d =>
    if d ≤ 0 then do
      let _ ← loggingAttr "error"
      Except.error PyErr.valueError
    else Except.ok d

/-- get_runtime_config of configure.py.  config_from_file is collaborator
file I/O, so the loaded mapping cfg is a parameter.  The source passes the
args namespace and the whole config mapping to get_hardware_info where a
jobinfo string and a profiles mapping are expected; that call raises
NameError("re") before either argument is touched (see
get_hardware_info_always_nameError), so stand-in values are passed here. -/
def get_runtime_config (args : Args) (cfg : Cfg) (http : Option String) :
    Except PyErr (Cfg × Option String × String × Int) := do
  let ciapi ← CI_API_from_config_or_args args cfg
  let location ← get_location_from_config_or_args args cfg http
  let _hw ← get_hardware_info "" []
  let duration ← duration_validation args.duration
  return (cfg, ciapi, location, duration)

/-! ## cats/__init__.py: main after a successful optimisation

The sources model the run from the point where get_avg_estimates has
returned (now_avg, best_avg): the stderr reports, the POSIX-formatted
stdout line, and the footprint section guarded by --jobinfo.  The forecast
fetch, config file load and the greenAlgorithmsCalculator (whose module is
not under the available sources) are collaborator inputs. -/

structure DateTime where
  year : Nat
  month : Nat
  day : Nat
  hour : Nat
  minute : Nat
deriving DecidableEq

/-- Decimal digit characters of n, most significant first; the fuel is
structural and decimalChars supplies n+1, which always suffices. -/
def toDecimalAux : Nat → Nat → List Char
  | 0, _ => []
  | fuel + 1, n =>
    if n < 10 then [Nat.digitChar n]
    else toDecimalAux fuel (n / 10) ++ [Nat.digitChar (n % 10)]

def decimalChars (n : Nat) : List Char :=
  toDecimalAux (n + 1) n

def leftpad0 (w : Nat) (l : List Char) : List Char :=
  List.replicate (w - l.length) '0' ++ l

/-- strftime("%Y%m%d%H%M"): the four zero-padded fields after a %Y field.
For the years a datetime can hold this model agrees with the C library on
1000..9999; below 1000 the %Y width is platform dependent and the claims
only quantify over four-digit years. -/
def strftimeChars (dt : DateTime) : List Char :=
  leftpad0 4 (decimalChars dt.year) ++ leftpad0 2 (decimalChars dt.month) ++
    leftpad0 2 (decimalChars dt.day) ++ leftpad0 2 (decimalChars dt.hour) ++
    leftpad0 2 (decimalChars dt.minute)

def strftime_YmdHM (dt : DateTime) : String :=
  String.mk (strftimeChars dt)

/-- str(datetime) rendering used in the stderr report lines. -/
def reprDateTime (dt : DateTime) : String :=
  String.mk (leftpad0 4 (decimalChars dt.year)) ++ "-" ++
    String.mk (leftpad0 2 (decimalChars dt.month)) ++ "-" ++
    String.mk (leftpad0 2 (decimalChars dt.day)) ++ " " ++
    String.mk (leftpad0 2 (decimalChars dt.hour)) ++ ":" ++
    String.mk (leftpad0 2 (decimalChars dt.minute)) ++ ":00"

/-- A window as main consumes it from get_avg_estimates: a start instant
and the average carbon intensity over the window (spec name
ForecastWindow). -/
structure ForecastWindow where
  start : DateTime
  value : ℚ

/-- Result triple of the footprint estimation (spec name
FootprintEstimate, grams of CO2e). -/
structure FootprintEstimate where
  now : ℚ
  best : ℚ
  savings : ℚ

/-- Plain rendering of a rational for the report lines (the Python floats
print differently; no claim inspects these characters). -/
def reprQ (q : ℚ) : String :=
  (if q.num < 0 then "-" else "") ++
    String.mk (decimalChars q.num.natAbs) ++ "/" ++ String.mk (decimalChars q.den)

def reprForecastWindow (w : ForecastWindow) : String :=
  "WindowAvg(start=" ++ reprDateTime w.start ++ ", value=" ++ reprQ w.value ++ ")"

def error_message : String :=
  "Not enough information to estimate total carbon footprint, both --jobinfo and config files are needed.\n"

inductive EstimStatus where
  | noJobinfo
  | skipped
  | estimated
deriving DecidableEq

structure MainResult where
  stdout : List String
  stderr : List String
  outcome : Except PyErr EstimStatus

/-- Lines 131-161 of cats/__init__.py, from the stderr summary of the best
window onwards.  The config mapping is modelled by its partitions entry (a
list of partition names with an empty mapping rendered as []); accessing
config["partitions"] on a mapping without that key raises KeyError before
the degraded-mode message can be printed.  estim is the collaborator result
of greenAlgorithmsCalculator().get_footprint(), reached only in the
estimated branch. -/
def main_after_optimise (jobinfoArg : Option String) (config : List (String × List String))
    (now_avg best_avg : ForecastWindow) (estim : FootprintEstimate) : MainResult :=
  let base_stderr := [reprForecastWindow best_avg ++ "\n",
                      "Best job start time: " ++ reprDateTime best_avg.start ++ "\n"]
  let base_stdout := [strftime_YmdHM best_avg.start]
  match jobinfoArg with
  | none => ⟨base_stdout, base_stderr, Except.ok EstimStatus.noJobinfo⟩
  | some jstr =>
    match lookupValue config "partitions" with
    | none => ⟨base_stdout, base_stderr, Except.error (PyErr.keyError "partitions")⟩
    | some names =>
      let v := validate_jobinfo jstr names
      if v.info.isEmpty || config.isEmpty then
        ⟨base_stdout, base_stderr ++ v.stderr ++ [error_message],
         Except.ok EstimStatus.skipped⟩
      else
        ⟨base_stdout,
         base_stderr ++ v.stderr ++
           ["Estimated emmissions for running job now: " ++ reprQ estim.now ++ "\n",
            "Estimated emmissions for running delayed job: " ++ reprQ estim.best ++
              ")\n (- " ++ reprQ estim.savings ++ ")"],
         Except.ok EstimStatus.estimated⟩

/-! ## ForecastWindowOptimizer, modelled from the spec

cats/optimise_starttime.py (get_avg_estimates) is part of the repository
but not among the available sources; the definitions below follow spec
section 4.1 word for word: the forecast is a piecewise-constant step
function (each sample holds until the next sample, the last one for the
hold parameter), candidate starts are the sample timestamps permitting a
full window before the horizon, the window average is the overlap-weighted
sum divided by the duration, and ties break to the earliest start. -/

structure ForecastSample where
  time : ℚ
  intensity : ℚ

structure WindowEstimate where
  start : ℚ
  value : ℚ
deriving DecidableEq

/-- Modelled from the spec: the segments (start, end, intensity) of the
step function induced by the samples; the last sample holds for hold. -/
def segmentsOf : List ForecastSample → ℚ → List (ℚ × ℚ × ℚ)
  | [], _ => []
  | [s], hold => [(s.time, s.time + hold, s.intensity)]
  | s :: s2 :: rest, hold => (s.time, s2.time, s.intensity) :: segmentsOf (s2 :: rest) hold

/-- Modelled from the spec: length of the overlap of [a, b) and [lo, hi). -/
def overlapLen (a b lo hi : ℚ) : ℚ :=
  max 0 (min b hi - max a lo)

/-- Modelled from the spec: time-weighted average intensity over the window
[start, start + dur), summing intensity times overlap over every segment
and dividing by the duration. -/
def windowAverage (fs : List ForecastSample) (hold start dur : ℚ) : ℚ :=
  ((segmentsOf fs hold).map
    (fun seg => seg.2.2 * overlapLen seg.1 seg.2.1 start (start + dur))).sum / dur

/-- Modelled from the spec: the forecast horizon, end of the last segment. -/
def horizonOf (fs : List ForecastSample) (hold : ℚ) : ℚ :=
  match fs.getLast? with
  | none => 0
  | some s => s.time + hold

/-- Modelled from the spec: candidate starts are sample timestamps whose
full window fits before the horizon. -/
def candidateStarts (fs : List ForecastSample) (hold dur : ℚ) : List ℚ :=
  (fs.map ForecastSample.time).filter (fun t => t + dur ≤ horizonOf fs hold)

/-- Modelled from the spec: get_avg_estimates returns the now window,
anchored at the first sample, and the best window, the minimum average
over the candidate starts with ties broken to the earliest (strict
improvement only, so the fold keeps the first minimiser); none models the
EmptyForecast and InsufficientForecastHorizon failures. -/
def get_avg_estimates (fs : List ForecastSample) (hold dur : ℚ) :
    Option (WindowEstimate × WindowEstimate) :=
  match fs with
  | [] => none
  | first :: _ =>
    match candidateStarts fs hold dur with
    | [] => none
    | c0 :: cs =>
      let nowW : WindowEstimate := ⟨first.time, windowAverage fs hold first.time dur⟩
      let bestW := cs.foldl
        (fun acc t =>
          let v := windowAverage fs hold t dur
          if v < acc.value then ⟨t, v⟩ else acc)
        ⟨c0, windowAverage fs hold c0 dur⟩
      some (nowW, bestW)

/-! ## FootprintEstimator, modelled from the spec

cats/carbonFootprint.py (greenAlgorithmsCalculator) is part of the
repository but not among the available sources; the definitions below
follow spec section 4.2: energy in kWh is the sum over the resource kinds
cpu and gpu of units times power times hours over 1000, plus the memory
term, and both emission figures multiply that single energy figure by the
respective carbon intensity. -/

structure JobSpec where
  cpus : Nat
  gpus : Nat
  memory_gb : ℚ

/-- Modelled from the spec: units of a resource kind used by the job. -/
def resource_units (job : JobSpec) (kind : String) : ℚ :=
  if kind = "cpu" then job.cpus else job.gpus

/-- Modelled from the spec: power draw per unit of a resource kind. -/
def resource_power (p : HardwareProfile) (kind : String) : ℚ :=
  if kind = "cpu" then p.cpu_power else p.gpu_power

/-- Modelled from the spec: energy (kWh) as the sum over resource kinds of
units times watts times hours over 1000, plus the memory term. -/
def energy_kWh (p : HardwareProfile) (job : JobSpec) (duration_hours : ℚ) : ℚ :=
  ((["cpu", "gpu"].map
    (fun k => resource_units job k * resource_power p k * duration_hours / 1000)).sum)
    + job.memory_gb * p.mem_coeff * duration_hours / 1000

/-- Modelled from the spec: the footprint estimate; one shared energy
figure, emissions now and best from the two intensities, savings their
difference. -/
def get_footprint (p : HardwareProfile) (job : JobSpec)
    (duration_hours now_intensity best_intensity : ℚ) : FootprintEstimate :=
  let e := energy_kWh p job duration_hours
  { now := e * now_intensity
    best := e * best_intensity
    savings := e * now_intensity - e * best_intensity }

/-! ## Helper lemmas -/

theorem except_bind_ok (x : α) (f : α → Except ε β) :
    (Except.ok x >>= f) = f x := rfl

theorem except_bind_error (e : ε) (f : α → Except ε β) :
    ((Except.error e : Except ε α) >>= f) = Except.error e := rfl

/-- Every call of configure.get_hardware_info raises NameError("re"): the
name re is not bound in the module scope, and re.finditer is evaluated
before anything else can happen. -/
theorem get_hardware_info_always_nameError (jobinfo : String)
    (profiles : List (String × HardwareProfile)) :
    get_hardware_info jobinfo profiles = Except.error (PyErr.nameError "re") := rfl

/-- CI_API_from_config_or_args never raises: an invalid choice only logs
and falls off the end. -/
theorem CI_API_isOk (args : Args) (cfg : Cfg) :
    ∃ x, CI_API_from_config_or_args args cfg = Except.ok x := by
  simp only [CI_API_from_config_or_args]
  by_cases h : API_interfaces_keys.contains (match args.api with
    | some a => a
    | none => match cfg.api with | some a => a | none => "carbonintensity.org.uk")
  · exact ⟨some (match args.api with
      | some a => a
      | none => match cfg.api with | some a => a | none => "carbonintensity.org.uk"),
      by rw [if_pos h]; rfl⟩
  · exact ⟨none, by rw [if_neg h]; rfl⟩

/-- The location lookup either produces a location or raises the
sys.exit(1) of a failed request or the assert on an empty postal code. -/
theorem get_location_cases (args : Args) (cfg : Cfg) (http : Option String) :
    (∃ l, get_location_from_config_or_args args cfg http = Except.ok l)
    ∨ get_location_from_config_or_args args cfg http = Except.error (PyErr.systemExit 1)
    ∨ get_location_from_config_or_args args cfg http = Except.error PyErr.assertionError := by
  unfold get_location_from_config_or_args
  rcases args.location with _ | l
  · rcases cfg.location with _ | l
    · rcases http with _ | postal
      · exact Or.inr (Or.inl rfl)
      · by_cases hp : postal = ""
        · exact Or.inr (Or.inr (by simp [hp]))
        · exact Or.inl ⟨postal, by simp [hp]⟩
    · exact Or.inl ⟨l, rfl⟩
  · exact Or.inl ⟨l, rfl⟩

/-! ## Claim theorems -/

/-- C1: on the forecast with samples at minutes 0, 30 and 60 of
intensities 200, 100 and 50, each holding 30 minutes, and duration 30, the
optimiser returns the now window starting at 0 with average 200 and the
best window starting at 60 with average 50. -/
theorem get_avg_estimates_example :
    get_avg_estimates [⟨0, 200⟩, ⟨30, 100⟩, ⟨60, 50⟩] 30 30 =
      some (⟨0, 200⟩, ⟨60, 50⟩) := by
  norm_num [get_avg_estimates, candidateStarts, horizonOf, windowAverage, segmentsOf,
    overlapLen, List.getLast?, List.filter]

/-- C2: the footprint estimate is computed from one shared energy figure:
now and best multiply the same energy_kWh by the respective intensity,
savings is their difference, and energy_kWh is the sum over cpu and gpu of
units times watts times hours over 1000 plus the memory term. -/
theorem get_footprint_shared_energy (p : HardwareProfile) (job : JobSpec)
    (durH nowI bestI : ℚ) :
    (get_footprint p job durH nowI bestI).now = energy_kWh p job durH * nowI
    ∧ (get_footprint p job durH nowI bestI).best = energy_kWh p job durH * bestI
    ∧ (get_footprint p job durH nowI bestI).savings
      = (get_footprint p job durH nowI bestI).now - (get_footprint p job durH nowI bestI).best
    ∧ energy_kWh p job durH
      = (job.cpus * p.cpu_power * durH) / 1000 + (job.gpus * p.gpu_power * durH) / 1000
        + job.memory_gb * p.mem_coeff * durH / 1000 := by
  refine ⟨rfl, rfl, rfl, ?_⟩
  have hc : ("cpu" : String) = "cpu" := rfl
  have hg : ("gpu" : String) ≠ "cpu" := by decide
  simp only [energy_kWh, resource_units, resource_power, List.map_cons, List.map_nil,
    List.sum_cons, List.sum_nil, if_pos hc, if_neg hg]
  push_cast
  ring

/-- C3: get_runtime_config raises on every argument namespace instead of
returning the documented tuple: whenever the location resolves (in
particular for every namespace with a location argument) it raises
NameError("re") from the unconditional get_hardware_info call, before the
duration validation; the only other possible outcomes are the SystemExit
and AssertionError raised inside the collaborator location lookup. -/
theorem get_runtime_config_always_raises (args : Args) (cfg : Cfg) (http : Option String) :
    (∀ l : String, get_runtime_config { args with location := some l } cfg http
       = Except.error (PyErr.nameError "re"))
    ∧ (get_runtime_config args cfg http = Except.error (PyErr.nameError "re")
       ∨ get_runtime_config args cfg http = Except.error (PyErr.systemExit 1)
       ∨ get_runtime_config args cfg http = Except.error PyErr.assertionError) := by
  constructor
  · intro l
    obtain ⟨x, hx⟩ := CI_API_isOk { args with location := some l } cfg
    unfold get_runtime_config
    rw [hx, except_bind_ok]
    rw [show get_location_from_config_or_args { args with location := some l } cfg http
        = Except.ok l from rfl]
    rw [except_bind_ok, get_hardware_info_always_nameError, except_bind_error]
  · obtain ⟨x, hx⟩ := CI_API_isOk args cfg
    rcases get_location_cases args cfg http with ⟨l, hl⟩ | hl | hl
    · refine Or.inl ?_
      unfold get_runtime_config
      rw [hx, except_bind_ok, hl, except_bind_ok, get_hardware_info_always_nameError,
        except_bind_error]
    · refine Or.inr (Or.inl ?_)
      unfold get_runtime_config
      rw [hx, except_bind_ok, hl, except_bind_error]
    · refine Or.inr (Or.inr ?_)
      unfold get_runtime_config
      rw [hx, except_bind_ok, hl, except_bind_error]

def sample_profile : HardwareProfile :=
  { cpu_power := 10, gpu_power := 200, mem_coeff := 3 / 8 }

/-- C4: the claim says that profile resolution fails exactly on unknown
profile names, and that with an existing profile name validate_jobinfo and
get_hardware_info return the parsed hardware information.  validate_jobinfo
does (third conjunct), but configure.get_hardware_info raises
NameError("re") on this very input (first conjunct), and even its
profile-resolution block alone terminates the process through the
misindented sys.exit(1) whenever a profile key is present, existing or not
(second conjunct): the code, not the claim, is at fault. -/
theorem get_hardware_info_known_profile_still_fails :
    get_hardware_info "profile=default,cpus=2,gpus=0,memory=8" [("default", sample_profile)]
      = Except.error (PyErr.nameError "re")
    ∧ configure_profile_resolution
        [("profile", "default"), ("cpus", "2"), ("gpus", "0"), ("memory", "8")]
        [("default", sample_profile)]
      = Except.error (PyErr.systemExit 1)
    ∧ (validate_jobinfo "profile=default,cpus=2,gpus=0,memory=8" ["default"]).info
      = [("cpus", 2), ("gpus", 0), ("memory", 8)] :=
  ⟨rfl, rfl, rfl⟩

/-- C5 counterexample: with required keys present, no profile key, and a
configuration whose first (and only) profile is GPU_partition,
validate_jobinfo does not select GPU_partition: it substitutes the fixed
name "default", finds it unknown, reports the unknown-profile error and
fails with the empty dict. -/
theorem validate_jobinfo_ignores_first_profile :
    (validate_jobinfo "cpus=2,gpus=0,memory=8" ["GPU_partition"]).info = []
    ∧ (validate_jobinfo "cpus=2,gpus=0,memory=8" ["GPU_partition"]).stderr
      = [profile_msg ["GPU_partition"]] :=
  ⟨rfl, rfl⟩

/-- C5 amended: for every jobinfo string whose parsed info has the three
required keys and no profile key, validate_jobinfo substitutes the fixed
profile name "default" - when no profile named "default" is configured it
fails with the unknown-profile report, whatever profile is listed first,
and when "default" is configured the resolution step passes, so any
remaining failure is the numeric check, never the profile lookup; the
first-profile default exists only in configure.get_hardware_info, whose
(unreachable) resolution block does take the head of the profiles mapping
when no profile key is present. -/
theorem profile_resolution_amended (j : String) (names : List String)
    (hmiss : (missingKeys expected_info_keys (dictOfPairs (infoPairs j))).isEmpty = true)
    (hnoprof : lookupValue (dictOfPairs (infoPairs j)) "profile" = none)
    (k : String) (prof : HardwareProfile) (ps : List (String × HardwareProfile))
    (d : List (String × String)) (h : lookupValue d "profile" = none) :
    ("default" ∉ names → validate_jobinfo j names = ⟨[profile_msg names], []⟩)
    ∧ ("default" ∈ names →
        (validate_jobinfo j names).stderr = []
        ∨ ∃ key, (validate_jobinfo j names).stderr = [numeric_msg key])
    ∧ configure_profile_resolution d ((k, prof) :: ps) = Except.ok (prof, d) := by
  refine ⟨?_, ?_, by simp [configure_profile_resolution, h]⟩
  · intro hdef
    simp [validate_jobinfo, hmiss, hnoprof, hdef]
  · intro hdef
    rcases hconv : convertInts
        ((dictOfPairs (infoPairs j)).filter (fun kv => kv.1 != "profile")) with key | out
    · refine Or.inr ⟨key, ?_⟩
      simp [validate_jobinfo, hmiss, hnoprof, hdef, hconv]
    · refine Or.inl ?_
      simp [validate_jobinfo, hmiss, hnoprof, hdef, hconv]

theorem profile_resolution_amended_witness :
    ((missingKeys expected_info_keys
        (dictOfPairs (infoPairs "cpus=2,gpus=0,memory=8"))).isEmpty = true
     ∧ lookupValue (dictOfPairs (infoPairs "cpus=2,gpus=0,memory=8")) "profile" = none
     ∧ lookupValue ([("cpus", "2")] : List (String × String)) "profile" = none)
    ∧ (("default" ∉ (["GPU_partition"] : List String) →
          validate_jobinfo "cpus=2,gpus=0,memory=8" ["GPU_partition"]
            = ⟨[profile_msg ["GPU_partition"]], []⟩)
       ∧ ("default" ∈ (["GPU_partition"] : List String) →
          (validate_jobinfo "cpus=2,gpus=0,memory=8" ["GPU_partition"]).stderr = []
          ∨ ∃ key, (validate_jobinfo "cpus=2,gpus=0,memory=8" ["GPU_partition"]).stderr
              = [numeric_msg key])
       ∧ configure_profile_resolution [("cpus", "2")]
           (("GPU_partition", sample_profile) :: [])
         = Except.ok (sample_profile, [("cpus", "2")])) :=
  ⟨⟨rfl, rfl, rfl⟩,
   profile_resolution_amended "cpus=2,gpus=0,memory=8" ["GPU_partition"] rfl rfl
     "GPU_partition" sample_profile [] [("cpus", "2")] rfl⟩

def args_bad_duration : Args :=
  { api := none, location := some "M15", duration := "abc", jobinfo := none }

/-- C7: the claim (and the docstring of get_runtime_config) promise a
ValueError for a duration that is not a positive integer; the code cannot
keep it: get_runtime_config raises NameError("re") before the duration is
looked at (first conjunct), and the duration block in isolation raises
AttributeError("eror") for a non-numeric duration because its handler
calls the misspelt logging.eror (second conjunct); only the non-positive
numeric branch really raises ValueError (third conjunct). -/
theorem duration_validation_wrong_error :
    get_runtime_config args_bad_duration ⟨none, none⟩ none
      = Except.error (PyErr.nameError "re")
    ∧ duration_validation "abc" = Except.error (PyErr.attributeError "eror")
    ∧ duration_validation "0" = Except.error PyErr.valueError :=
  ⟨rfl, rfl, rfl⟩

/-! ## Decimal formatting lemmas -/

theorem length_toDecimalAux_le (fuel : Nat) : ∀ (n k : Nat), 0 < k → n < 10 ^ k →
    (toDecimalAux fuel n).length ≤ k := by
  induction fuel with
  | zero => intro n k _ _; simp [toDecimalAux]
  | succ fuel ih =>
    intro n k hk hn
    simp only [toDecimalAux]
    by_cases h : n < 10
    · simpa [h] using hk
    · simp only [h, if_false, List.length_append, List.length_cons, List.length_nil]
      have hk2 : 2 ≤ k := by
        rcases Nat.lt_or_ge k 2 with hlt | hge
        · interval_cases k <;> omega
        · exact hge
      have hdiv : n / 10 < 10 ^ (k - 1) := by
        rw [Nat.div_lt_iff_lt_mul (by norm_num)]
        calc n < 10 ^ k := hn
        _ = 10 ^ (k - 1) * 10 := by
              rw [← pow_succ]
              congr 1
              omega
      have := ih (n / 10) (k - 1) (by omega) hdiv
      omega

theorem digitChar_isDigit : ∀ n < 10, (Nat.digitChar n).isDigit = true := by decide

theorem mem_toDecimalAux_isDigit (fuel : Nat) : ∀ (n : Nat) (c : Char),
    c ∈ toDecimalAux fuel n → c.isDigit = true := by
  induction fuel with
  | zero => intro n c hc; simp [toDecimalAux] at hc
  | succ fuel ih =>
    intro n c hc
    simp only [toDecimalAux] at hc
    by_cases h : n < 10
    · simp [h] at hc
      subst hc
      exact digitChar_isDigit n h
    · simp only [h, if_false, List.mem_append, List.mem_cons, List.not_mem_nil, or_false] at hc
      rcases hc with hc | hc
      · exact ih _ _ hc
      · subst hc
        exact digitChar_isDigit (n % 10) (Nat.mod_lt _ (by norm_num))

theorem length_leftpad0 (w : Nat) (l : List Char) :
    (leftpad0 w l).length = max w l.length := by
  simp only [leftpad0, List.length_append, List.length_replicate]
  omega

theorem mem_leftpad0 (w : Nat) (l : List Char) (c : Char) (hc : c ∈ leftpad0 w l) :
    c = '0' ∨ c ∈ l := by
  simp only [leftpad0, List.mem_append] at hc
  rcases hc with hc | hc
  · exact Or.inl (List.eq_of_mem_replicate hc)
  · exact Or.inr hc

theorem length_padded_decimal (w n k : Nat) (hk : 0 < k) (hkw : k ≤ w) (hn : n < 10 ^ k) :
    (leftpad0 w (decimalChars n)).length = w := by
  rw [length_leftpad0]
  have := length_toDecimalAux_le (n + 1) n k hk hn
  simp only [decimalChars]
  omega

theorem strftime_length (dt : DateTime) (hy : dt.year ≤ 9999) (hm : dt.month ≤ 99)
    (hd : dt.day ≤ 99) (hh : dt.hour ≤ 99) (hmin : dt.minute ≤ 99) :
    (strftime_YmdHM dt).length = 12 := by
  show (strftimeChars dt).length = 12
  simp only [strftimeChars, List.length_append]
  rw [length_padded_decimal 4 dt.year 4 (by norm_num) (by norm_num) (by norm_num; omega),
    length_padded_decimal 2 dt.month 2 (by norm_num) (by norm_num) (by norm_num; omega),
    length_padded_decimal 2 dt.day 2 (by norm_num) (by norm_num) (by norm_num; omega),
    length_padded_decimal 2 dt.hour 2 (by norm_num) (by norm_num) (by norm_num; omega),
    length_padded_decimal 2 dt.minute 2 (by norm_num) (by norm_num) (by norm_num; omega)]

theorem strftime_digits (dt : DateTime) :
    ∀ c ∈ (strftime_YmdHM dt).data, c.isDigit = true := by
  intro c hc
  have hc2 : c ∈ strftimeChars dt := hc
  simp only [strftimeChars, List.mem_append] at hc2
  have zero_digit : ('0' : Char).isDigit = true := by decide
  rcases hc2 with ((((hc2 | hc2) | hc2) | hc2) | hc2) <;>
    (rcases mem_leftpad0 _ _ _ hc2 with he | he
     · rw [he]; exact zero_digit
     · exact mem_toDecimalAux_isDigit _ _ _ he)

/-- The stdout of main after optimisation is always the single POSIX
formatted start line, whatever the footprint section then does. -/
theorem main_stdout_line (j : Option String) (config : List (String × List String))
    (now_avg best_avg : ForecastWindow) (estim : FootprintEstimate) :
    (main_after_optimise j config now_avg best_avg estim).stdout
      = [strftime_YmdHM best_avg.start] := by
  unfold main_after_optimise
  rcases j with _ | jstr
  · rfl
  · cases hl : lookupValue config "partitions" with
    | none => rfl
    | some names =>
      by_cases hv : ((validate_jobinfo jstr names).info.isEmpty || config.isEmpty) = true
      · simp [hv]
      · simp [hv]

theorem string_head_ne {s t : String} (c1 c2 : Char) (h1 : s.data.head? = some c1)
    (h2 : t.data.head? = some c2) (hne : c1 ≠ c2) : s ≠ t := by
  intro he
  subst he
  rw [h1] at h2
  injection h2 with h
  exact hne h

/-- C9: after a successful optimisation main prints exactly one stdout
line, the best window start formatted %Y%m%d%H%M, and for any datetime the
Python datetime type can hold with a four-digit year that string has 12
characters, all decimal digits. -/
theorem main_prints_posix_start_time (j : Option String)
    (config : List (String × List String)) (now_avg best_avg : ForecastWindow)
    (estim : FootprintEstimate)
    (hy : 1000 ≤ best_avg.start.year) (hy2 : best_avg.start.year ≤ 9999)
    (hm : best_avg.start.month ≤ 12) (hd : best_avg.start.day ≤ 31)
    (hh : best_avg.start.hour ≤ 23) (hmin : best_avg.start.minute ≤ 59) :
    (main_after_optimise j config now_avg best_avg estim).stdout
      = [strftime_YmdHM best_avg.start]
    ∧ (strftime_YmdHM best_avg.start).length = 12
    ∧ ∀ c ∈ (strftime_YmdHM best_avg.start).data, c.isDigit = true :=
  ⟨main_stdout_line j config now_avg best_avg estim,
   strftime_length best_avg.start hy2 (by omega) (by omega) (by omega) (by omega),
   strftime_digits best_avg.start⟩

theorem main_prints_posix_start_time_witness :
    (1000 ≤ (2023 : Nat) ∧ (2023 : Nat) ≤ 9999 ∧ (5 : Nat) ≤ 12 ∧ (6 : Nat) ≤ 31
      ∧ (7 : Nat) ≤ 23 ∧ (8 : Nat) ≤ 59)
    ∧ ((main_after_optimise none [] ⟨⟨2023, 5, 6, 7, 8⟩, 200⟩ ⟨⟨2023, 5, 6, 7, 8⟩, 50⟩
          ⟨2, 1, 1⟩).stdout = [strftime_YmdHM ⟨2023, 5, 6, 7, 8⟩]
       ∧ (strftime_YmdHM (⟨2023, 5, 6, 7, 8⟩ : DateTime)).length = 12
       ∧ ∀ c ∈ (strftime_YmdHM (⟨2023, 5, 6, 7, 8⟩ : DateTime)).data, c.isDigit = true) :=
  ⟨by norm_num,
   main_prints_posix_start_time none [] ⟨⟨2023, 5, 6, 7, 8⟩, 200⟩ ⟨⟨2023, 5, 6, 7, 8⟩, 50⟩
     ⟨2, 1, 1⟩ (by norm_num) (by norm_num) (by norm_num) (by norm_num) (by norm_num)
     (by norm_num)⟩

/-- C10: with --jobinfo supplied and a configuration mapping without a
partitions key, main raises KeyError("partitions") from
config["partitions"] and the degraded-mode message is never written, even
though the start time has already gone to stdout. -/
theorem main_keyerror_partitions (jstr : String) (config : List (String × List String))
    (now_avg best_avg : ForecastWindow) (estim : FootprintEstimate)
    (hpart : lookupValue config "partitions" = none) :
    (main_after_optimise (some jstr) config now_avg best_avg estim).outcome
      = Except.error (PyErr.keyError "partitions")
    ∧ error_message ∉ (main_after_optimise (some jstr) config now_avg best_avg estim).stderr
    ∧ (main_after_optimise (some jstr) config now_avg best_avg estim).stdout
      = [strftime_YmdHM best_avg.start] := by
  refine ⟨?_, ?_, main_stdout_line (some jstr) config now_avg best_avg estim⟩
  · unfold main_after_optimise
    rw [hpart]
  · unfold main_after_optimise
    rw [hpart]
    simp only [List.mem_cons, List.not_mem_nil, or_false]
    push_neg
    constructor
    · exact string_head_ne 'N' 'W' rfl rfl (by decide)
    · exact string_head_ne 'N' 'B' rfl rfl (by decide)

/-! ## Soundness of validate_jobinfo (claim C8 machinery) -/

theorem mem_takeWhile_sat {α : Type} (p : α → Bool) :
    ∀ (l : List α) (c : α), c ∈ l.takeWhile p → p c = true := by
  intro l
  induction l with
  | nil => intro c h; simp [List.takeWhile] at h
  | cons a as iha =>
    intro c h
    rw [List.takeWhile_cons] at h
    by_cases hp : p a
    · simp only [hp, if_true, List.mem_cons] at h
      rcases h with h | h
      · subst h; exact hp
      · exact iha c h
    · simp [hp] at h

/-- Every value captured by the scanner is a nonempty run of word
characters (the second group of the regex is \w+). -/
theorem scanPairs_values (fuel : Nat) : ∀ (l : List Char) (kv : List Char × List Char),
    kv ∈ scanPairsFuel fuel l → kv.2 ≠ [] ∧ ∀ c ∈ kv.2, isWordChar c = true := by
  induction fuel with
  | zero => intro l kv h; simp [scanPairsFuel] at h
  | succ fuel ih =>
    intro l kv h
    match l with
    | [] => simp [scanPairsFuel] at h
    | c :: cs =>
      simp only [scanPairsFuel] at h
      by_cases hw : isWordChar c
      · rw [if_pos hw] at h
        split at h
        · rename_i r2 heq
          by_cases hne : (r2.takeWhile isWordChar).isEmpty
          · rw [if_pos hne] at h
            exact ih cs kv h
          · rw [if_neg hne] at h
            rcases List.mem_cons.mp h with he | he
            · subst he
              refine ⟨by simpa using hne, ?_⟩
              intro x hx
              exact mem_takeWhile_sat isWordChar r2 x hx
            · exact ih _ kv he
        · exact ih cs kv h
      · rw [if_neg hw] at h
        exact ih cs kv h

theorem mem_updateValue {α : Type} : ∀ (d : List (String × α)) (k : String) (v : α)
    (e : String × α), e ∈ updateValue d k v → e ∈ d ∨ e = (k, v) := by
  intro d
  induction d with
  | nil => intro k v e he; simp [updateValue] at he
  | cons q qs ihq =>
    intro k v e he
    simp only [updateValue] at he
    by_cases hq : q.1 = k
    · rw [if_pos hq] at he
      rcases List.mem_cons.mp he with he | he
      · exact Or.inr he
      · rcases ihq k v e he with h | h
        · exact Or.inl (List.mem_cons_of_mem _ h)
        · exact Or.inr h
    · rw [if_neg hq] at he
      rcases List.mem_cons.mp he with he | he
      · exact Or.inl (he ▸ List.mem_cons_self q qs)
      · rcases ihq k v e he with h | h
        · exact Or.inl (List.mem_cons_of_mem _ h)
        · exact Or.inr h

theorem mem_dictInsert {α : Type} (d : List (String × α)) (k : String) (v : α)
    (e : String × α) (he : e ∈ dictInsert d k v) : e ∈ d ∨ e = (k, v) := by
  unfold dictInsert at he
  by_cases hs : (lookupValue d k).isSome
  · rw [if_pos hs] at he
    exact mem_updateValue d k v e he
  · rw [if_neg hs] at he
    rcases List.mem_append.mp he with h | h
    · exact Or.inl h
    · exact Or.inr (by simpa using h)

theorem dictOfPairs_pred {α : Type} (P : String × α → Prop) :
    ∀ (ps d : List (String × α)), (∀ e ∈ d, P e) → (∀ e ∈ ps, P e) →
    ∀ e ∈ List.foldl (fun d kv => dictInsert d kv.1 kv.2) d ps, P e := by
  intro ps
  induction ps with
  | nil => intro d hd _ e he; exact hd e he
  | cons q qs ihq =>
    intro d hd hps e he
    simp only [List.foldl_cons] at he
    refine ihq (dictInsert d q.1 q.2) ?_ (fun x hx => hps x (List.mem_cons_of_mem _ hx)) e he
    intro x hx
    rcases mem_dictInsert d q.1 q.2 x hx with h | h
    · exact hd x h
    · exact h ▸ hps q (List.mem_cons_self q qs)

theorem infoPairs_values_word (j : String) (e : String × String) (he : e ∈ infoPairs j) :
    ∀ c ∈ e.2.data, isWordChar c = true := by
  simp only [infoPairs, List.mem_map] at he
  obtain ⟨kv, hkv, hkv2⟩ := he
  have hval := (scanPairs_values j.data.length j.data kv hkv).2
  subst hkv2
  intro c hc
  exact hval c hc

theorem dict_values_word (j : String) (e : String × String)
    (he : e ∈ dictOfPairs (infoPairs j)) : ∀ c ∈ e.2.data, isWordChar c = true :=
  dictOfPairs_pred (fun e => ∀ c ∈ e.2.data, isWordChar c = true) (infoPairs j) []
    (by simp) (fun e he => infoPairs_values_word j e he) e he

theorem wordChar_not_whitespace (c : Char) (h : isWordChar c = true) :
    c.isWhitespace = false := by
  cases hw : c.isWhitespace
  · rfl
  · exfalso
    have hc : ((c = ' ' ∨ c = '\t') ∨ c = '\x0d') ∨ c = '\n' := by
      simpa [Char.isWhitespace, decide_eq_true_eq] using hw
    rcases hc with ((h1 | h1) | h1) | h1 <;> (subst h1; exact absurd h (by decide))

theorem dropWhile_no_ws (l : List Char) (h : ∀ c ∈ l, isWordChar c = true) :
    l.dropWhile Char.isWhitespace = l := by
  cases l with
  | nil => rfl
  | cons a as =>
    rw [List.dropWhile_cons]
    have := wordChar_not_whitespace a (h a (List.mem_cons_self a as))
    simp [this]

theorem stripSpaces_word_eq (l : List Char) (h : ∀ c ∈ l, isWordChar c = true) :
    stripSpaces l = l := by
  unfold stripSpaces
  rw [dropWhile_no_ws l h,
    dropWhile_no_ws l.reverse (fun c hc => h c (List.mem_reverse.mp hc)),
    List.reverse_reverse]

/-- int() of a token made of word characters cannot be negative: the minus
sign is not a word character. -/
theorem pyInt_word_nonneg (s : String) (hW : ∀ c ∈ s.data, isWordChar c = true)
    (n : Int) (hp : pyInt s = some n) : 0 ≤ n := by
  unfold pyInt at hp
  rw [stripSpaces_word_eq s.data hW] at hp
  have hm : ¬(s.data.head? = some '-') := by
    rcases hd : s.data with _ | ⟨c, cs⟩
    · simp
    · have hc : isWordChar c = true := hW c (hd ▸ List.mem_cons_self c cs)
      simp only [List.head?_cons, Option.some.injEq]
      exact fun he => absurd hc (by rw [he]; decide)
  have hpl : ¬(s.data.head? = some '+') := by
    rcases hd : s.data with _ | ⟨c, cs⟩
    · simp
    · have hc : isWordChar c = true := hW c (hd ▸ List.mem_cons_self c cs)
      simp only [List.head?_cons, Option.some.injEq]
      exact fun he => absurd hc (by rw [he]; decide)
  rw [if_neg hm, if_neg hpl] at hp
  rcases hopt : pyIntDigits s.data with _ | m
  · rw [hopt] at hp; simp at hp
  · rw [hopt] at hp
    simp at hp
    omega

theorem convertInts_mem : ∀ (d : List (String × String)) (out : List (String × Int)),
    convertInts d = Except.ok out → ∀ kv ∈ out, ∃ s, (kv.1, s) ∈ d ∧ pyInt s = some kv.2 := by
  intro d
  induction d with
  | nil =>
    intro out h kv hkv
    simp only [convertInts] at h
    injection h with h
    subst h
    simp at hkv
  | cons q qs ihq =>
    intro out h kv hkv
    simp only [convertInts] at h
    rcases hq : pyInt q.2 with _ | m
    · rw [hq] at h; simp at h
    · rw [hq] at h
      rcases hrest : convertInts qs with k | r
      · rw [hrest] at h; simp at h
      · rw [hrest] at h
        injection h with h
        subst h
        rcases List.mem_cons.mp hkv with he | he
        · subst he
          exact ⟨q.2, List.mem_cons_self q qs, hq⟩
        · obtain ⟨s, hs1, hs2⟩ := ihq r hrest kv he
          exact ⟨s, List.mem_cons_of_mem _ hs1, hs2⟩

theorem convertInts_keys : ∀ (d : List (String × String)) (out : List (String × Int)),
    convertInts d = Except.ok out → out.map Prod.fst = d.map Prod.fst := by
  intro d
  induction d with
  | nil =>
    intro out h
    simp only [convertInts] at h
    injection h with h
    subst h
    rfl
  | cons q qs ihq =>
    intro out h
    simp only [convertInts] at h
    rcases hq : pyInt q.2 with _ | m
    · rw [hq] at h; simp at h
    · rw [hq] at h
      rcases hrest : convertInts qs with k | r
      · rw [hrest] at h; simp at h
      · rw [hrest] at h
        injection h with h
        subst h
        simp only [List.map_cons]
        rw [ihq r hrest]

theorem lookupValue_isSome_mem {α : Type} : ∀ (d : List (String × α)) (k : String),
    (lookupValue d k).isSome = true → ∃ v, (k, v) ∈ d := by
  intro d k
  induction d with
  | nil => intro h; simp [lookupValue] at h
  | cons q qs ihq =>
    intro h
    simp only [lookupValue] at h
    by_cases hq : q.1 = k
    · refine ⟨q.2, ?_⟩
      have : (k, q.2) = q := by rw [← hq]
      rw [this]
      exact List.mem_cons_self q qs
    · rw [if_neg hq] at h
      obtain ⟨v, hv⟩ := ihq h
      exact ⟨v, List.mem_cons_of_mem _ hv⟩

theorem missingKeys_empty_mem {α : Type} (required : List String) (d : List (String × α))
    (h : (missingKeys required d).isEmpty = true) (k : String) (hk : k ∈ required) :
    (lookupValue d k).isSome = true := by
  simp only [missingKeys, List.isEmpty_eq_true, List.filter_eq_nil_iff] at h
  have h2 := h k hk
  cases hopt : lookupValue d k with
  | none => rw [hopt] at h2; simp at h2
  | some v => rfl

/-- Master case analysis of validate_jobinfo: every failing run reports on
stderr and returns the empty dict, and every run returning a dict has all
three required keys present with only non-negative integer values. -/
theorem validate_jobinfo_cases (j : String) (names : List String) :
    ((validate_jobinfo j names).info = [] ∧ (validate_jobinfo j names).stderr ≠ [])
    ∨ ((∀ k ∈ expected_info_keys, ∃ kv ∈ (validate_jobinfo j names).info, kv.1 = k)
       ∧ ∀ kv ∈ (validate_jobinfo j names).info, 0 ≤ kv.2) := by
  by_cases hmiss : (missingKeys expected_info_keys (dictOfPairs (infoPairs j))).isEmpty = true
  case neg =>
    left
    constructor <;> simp [validate_jobinfo, hmiss]
  case pos =>
    by_cases hprof :
        ((lookupValue (dictOfPairs (infoPairs j)) "profile").getD "default") ∈ names
    case neg =>
      left
      constructor <;> simp [validate_jobinfo, hmiss, hprof]
    case pos =>
      rcases hconv : convertInts
          ((dictOfPairs (infoPairs j)).filter (fun kv => kv.1 != "profile")) with key | out
      · left
        constructor <;> simp [validate_jobinfo, hmiss, hprof, hconv]
      · right
        have hval : validate_jobinfo j names = ⟨[], out⟩ := by
          simp [validate_jobinfo, hmiss, hprof, hconv]
        rw [hval]
        constructor
        · intro k hk
          have hsome := missingKeys_empty_mem expected_info_keys
            (dictOfPairs (infoPairs j)) hmiss k hk
          obtain ⟨v, hv⟩ := lookupValue_isSome_mem _ k hsome
          have hkp : (k != "profile") = true := by
            fin_cases hk <;> decide
          have hv2 : (k, v) ∈ (dictOfPairs (infoPairs j)).filter (fun kv => kv.1 != "profile") :=
            List.mem_filter.mpr ⟨hv, hkp⟩
          have hkeys := convertInts_keys _ out hconv
          have hmem : k ∈ out.map Prod.fst := by
            rw [hkeys]
            exact List.mem_map_of_mem Prod.fst hv2
          obtain ⟨kv, hkv, hfst⟩ := List.mem_map.mp hmem
          exact ⟨kv, hkv, hfst⟩
        · intro kv hkv
          obtain ⟨s, hs_mem, hs_parse⟩ := convertInts_mem _ out hconv kv hkv
          have hs_info : (kv.1, s) ∈ dictOfPairs (infoPairs j) := List.mem_of_mem_filter hs_mem
          have hword := dict_values_word j (kv.1, s) hs_info
          exact pyInt_word_nonneg s hword kv.2 hs_parse

/-- C8: a non-empty validate_jobinfo result always carries the keys
memory, cpus and gpus, and every value in it is a non-negative integer
(the regex group \w+ cannot capture a minus sign, and int() of such a
token is non-negative), so no negative resource count ever reaches the
footprint estimator. -/
theorem validate_jobinfo_nonempty_sound (jobinfo : String) (names : List String)
    (h : (validate_jobinfo jobinfo names).info ≠ []) :
    (∀ k ∈ expected_info_keys, ∃ kv ∈ (validate_jobinfo jobinfo names).info, kv.1 = k)
    ∧ ∀ kv ∈ (validate_jobinfo jobinfo names).info, 0 ≤ kv.2 := by
  rcases validate_jobinfo_cases jobinfo names with ⟨h1, _⟩ | h2
  · exact absurd h1 h
  · exact h2

theorem validate_jobinfo_nonempty_sound_witness :
    (validate_jobinfo "cpus=2,gpus=0,memory=8" ["default"]).info ≠ []
    ∧ ((∀ k ∈ expected_info_keys,
          ∃ kv ∈ (validate_jobinfo "cpus=2,gpus=0,memory=8" ["default"]).info, kv.1 = k)
       ∧ ∀ kv ∈ (validate_jobinfo "cpus=2,gpus=0,memory=8" ["default"]).info, 0 ≤ kv.2) :=
  ⟨by decide, validate_jobinfo_nonempty_sound "cpus=2,gpus=0,memory=8" ["default"] (by decide)⟩

theorem main_keyerror_partitions_witness :
    lookupValue ([] : List (String × List String)) "partitions" = none
    ∧ ((main_after_optimise (some "cpus=2,gpus=0,memory=8") []
          ⟨⟨2023, 5, 6, 7, 8⟩, 200⟩ ⟨⟨2023, 5, 6, 9, 0⟩, 50⟩ ⟨2, 1, 1⟩).outcome
        = Except.error (PyErr.keyError "partitions")
       ∧ error_message ∉ (main_after_optimise (some "cpus=2,gpus=0,memory=8") []
            ⟨⟨2023, 5, 6, 7, 8⟩, 200⟩ ⟨⟨2023, 5, 6, 9, 0⟩, 50⟩ ⟨2, 1, 1⟩).stderr
       ∧ (main_after_optimise (some "cpus=2,gpus=0,memory=8") []
            ⟨⟨2023, 5, 6, 7, 8⟩, 200⟩ ⟨⟨2023, 5, 6, 9, 0⟩, 50⟩ ⟨2, 1, 1⟩).stdout
         = [strftime_YmdHM ⟨2023, 5, 6, 9, 0⟩]) :=
  ⟨rfl,
   main_keyerror_partitions "cpus=2,gpus=0,memory=8" []
     ⟨⟨2023, 5, 6, 7, 8⟩, 200⟩ ⟨⟨2023, 5, 6, 9, 0⟩, 50⟩ ⟨2, 1, 1⟩ rfl⟩

